import Mathlib

/-
Verification of pyxem/signals/indexation_results.py (indexation-results module).

Shallow embedding conventions:
- numpy / Python floats are modelled as exact rationals (ℚ);
- a Python function that can raise (IndexError on an out-of-range list index,
  ZeroDivisionError on x / 0.0 for floats) is modelled as returning an Option,
  with none standing for the raised exception;
- a Python dict with a fixed key set and one conditionally-present key is
  modelled as a structure in which the conditional key has type Option ℚ
  (none = key absent from the dict);
- in-place attribute mutation of an argument object is modelled by returning
  the updated record; a warning emitted via warnings.warn is modelled as a
  Bool component of the result (true = a warning was emitted);
- external collaborators are abstracted: the rotation-matrix payload handed to
  transforms3d.euler.mat2euler is an opaque type parameter R, and the composite
  np.rad2deg(mat2euler(...)) conversion is an arbitrary function parameter
  euler : R → E (the module never inspects its output);
- Python stable sorting (sorted with a key) is modelled by insertion sort with
  the same comparison; for a total preorder a stable sort is a unique function,
  so this coincides with Timsort.
-/

/-- One vector-matching candidate, as described by the source docstring:
entries [phase, R, match_rate, ehkls, total_error] carried as the attributes
phase_index, rotation_matrix, match_rate, error_hkls, total_error. -/
structure MatchCandidate (R : Type) where
  phase_index : ℤ
  rotation_matrix : R
  match_rate : ℚ
  error_hkls : List ℚ
  total_error : ℚ
  deriving DecidableEq

/-- The metrics dict built by crystal_from_vector_matching.  The keys
match_rate, ehkls, total_error and orientation_reliability are always set;
phase_reliability is set only in the multi-phase branch, so it is an Option
(none = the key is absent from the dict). -/
structure VectorMetrics where
  match_rate : ℚ
  ehkls : List ℚ
  total_error : ℚ
  phase_reliability : Option ℚ
  orientation_reliability : ℚ
  deriving DecidableEq

/-- The results_array of shape (3) returned by crystal_from_vector_matching:
[phase, np.rad2deg(mat2euler(...)), dict(metrics)].  The Euler-angle entry is
the abstract image of the best candidate's rotation matrix. -/
structure ResultsArray (E : Type) where
  phase_index : ℤ
  orientation : E
  metrics : VectorMetrics
  deriving DecidableEq

/-- Python sorted(..., key=attrgetter("total_error"), reverse=False): a stable
ascending sort by total_error. -/
def sortByError {R : Type} (z : List (MatchCandidate R)) : List (MatchCandidate R) :=
  List.insertionSort (fun a b => a.total_error ≤ b.total_error) z

/-- Modelled from the spec: get_nth_best_solution lives in
pyxem.utils.indexation_utils, which is not part of the sources; per the spec
it returns, for the "vector" mode with key "total_error" and descending=False,
the rank-th candidate of the list ordered by ascending total_error ("rank-1 by
total_error ignoring phase"; rank 0 is the globally best candidate, ties broken
by input order).  An out-of-range rank yields none (the raised IndexError). -/
def get_nth_best_solution {R : Type} (z : List (MatchCandidate R)) (rank : Nat) :
    Option (MatchCandidate R) :=
  (sortByError z)[rank]?

/-- The list comprehension [match for match in z_matches if match.phase_index
!= best_match.phase_index]. -/
def other_phase_matches {R : Type} (best_match : MatchCandidate R)
    (z_matches : List (MatchCandidate R)) : List (MatchCandidate R) :=
  z_matches.filter (fun m => !(m.phase_index == best_match.phase_index))

/-- The list comprehension [match for match in z_matches if match.phase_index
== best_match.phase_index]. -/
def same_phase_matches {R : Type} (best_match : MatchCandidate R)
    (z_matches : List (MatchCandidate R)) : List (MatchCandidate R) :=
  z_matches.filter (fun m => m.phase_index == best_match.phase_index)

/-- The phase_reliability computation of crystal_from_vector_matching:
when other_phase_matches is non-empty, the metric
100 * (1 - best.total_error / second_best_phase.total_error) is stored, where
second_best_phase is the error-minimal other-phase candidate; a zero
denominator is Python float division by 0.0, i.e. ZeroDivisionError (none).
When other_phase_matches is empty the key is simply not set (some none). -/
def phase_reliability_step {R : Type} (best_match : MatchCandidate R)
    (z_matches : List (MatchCandidate R)) : Option (Option ℚ) :=
  if (other_phase_matches best_match z_matches).isEmpty then
    some none
  else
    match (sortByError (other_phase_matches best_match z_matches))[0]? with
    | none => none
    | some second_best_phase =>
      if second_best_phase.total_error = 0 then none
      else some (some (100 * (1 - best_match.total_error / second_best_phase.total_error)))

/-- The selection of second_match in crystal_from_vector_matching: in the
branch where other phases are present it is sorted(same_phase_matches)[1]
(IndexError, i.e. none, when the best phase has fewer than two candidates);
in the single-phase branch it is get_nth_best_solution(z, rank=1). -/
def select_second_match {R : Type} (best_match : MatchCandidate R)
    (z_matches : List (MatchCandidate R)) : Option (MatchCandidate R) :=
  if (other_phase_matches best_match z_matches).isEmpty then
    get_nth_best_solution z_matches 1
  else
    (sortByError (same_phase_matches best_match z_matches))[1]?

/-- Embedding of crystal_from_vector_matching (lines 35-107 of the source).
The sequencing follows the Python control flow: first the best match is
selected, then the phase_reliability block runs (it can raise before the
same-phase second best is looked up), then second_match is selected, and
finally the metrics dict and results array are assembled.  The denominator of
orientation_reliability is (second_match.total_error or 1.0): Python float
truthiness substitutes 1.0 exactly when the value is 0.0. -/
def crystal_from_vector_matching {R E : Type} (euler : R → E)
    (z_matches : List (MatchCandidate R)) : Option (ResultsArray E) :=
  match get_nth_best_solution z_matches 0 with
  | none => none
  | some best_match =>
    match phase_reliability_step best_match z_matches with
    | none => none
    | some pr =>
      match select_second_match best_match z_matches with
      | none => none
      | some second_match =>
        some ⟨best_match.phase_index, euler best_match.rotation_matrix,
          ⟨best_match.match_rate, best_match.error_hkls, best_match.total_error, pr,
            100 * (1 - best_match.total_error /
              (if second_match.total_error = 0 then 1 else second_match.total_error))⟩⟩

/-- Embedding of np.argmax on a 1-D array: the index of the first occurrence
of the maximal value (numpy semantics).  The empty list is not a valid numpy
input; the value 0 returned for it is never relied upon. -/
def np_argmax : List ℚ → Nat
  | [] => 0
  | v :: rest =>
    if rest.getD (np_argmax rest) v ≤ v then 0 else np_argmax rest + 1

/-- Embedding of _get_best_match (lines 156-169): z has shape (5, n_matches);
z[-1, :] is the score row and z[:, j] the column at the argmax of the scores.
Out-of-range accesses cannot occur for a well-formed (5, n) array with n ≥ 1;
getD's default is never used there. -/
def _get_best_match (z : List (List ℚ)) : List ℚ :=
  z.map (fun row => row.getD (np_argmax (z.getLastD [])) 0)

/-- Embedding of np.indices((H, W)): component 0 is the slow-varying row-index
grid (row r is W copies of r), component 1 the fast-varying column-index grid
(every row is range W). -/
def np_indices (H W : Nat) : List (List Nat) × List (List Nat) :=
  ((List.range H).map (fun r => (List.range W).map (fun _ => r)),
   (List.range H).map (fun _ => List.range W))

/-- The argument bundle handed to the external CrystalMap constructor:
rotations are kept as the Euler triples handed to Rotation.from_euler (an
external collaborator), and the properties dict is the single "score" entry. -/
structure CrystalMapInput where
  rotations : List (ℚ × ℚ × ℚ)
  phase_id : List ℚ
  x : List Nat
  y : List Nat
  score : List ℚ
  deriving DecidableEq

/-- GenericMatchingResults wraps a Signal2D whose navigation grid (H rows of
W pixels) holds one (5, n) match array per pixel. -/
structure GenericMatchingResults where
  data : List (List (List (List ℚ)))
  deriving DecidableEq

/-- Embedding of GenericMatchingResults.to_crystal_map (lines 175-209):
maps _get_best_match over every pixel, flattens each of the five channels in
row-major order, and reconstructs the pixel coordinates from the scan shape
alone via np.indices (x = xy[1].flatten(), y = xy[0].flatten()). -/
def GenericMatchingResults.to_crystal_map (self : GenericMatchingResults) :
    CrystalMapInput :=
  let s := self.data.map (fun row => row.map _get_best_match)
  let H := self.data.length
  let W := (self.data.headD []).length
  let xy := np_indices H W
  ⟨((s.map (fun row => row.map (fun c => (c.getD 1 0, c.getD 2 0, c.getD 3 0)))).flatten),
   (s.map (fun row => row.map (fun c => c.getD 0 0))).flatten,
   xy.2.flatten,
   xy.1.flatten,
   (s.map (fun row => row.map (fun c => c.getD 4 0))).flatten⟩

/-- A DiffractionVectors object as used by get_indexed_diffraction_vectors:
its other payload (the vectors themselves) is an opaque field of type D; hkls
is None (none) or an assignment of type Hk. -/
structure DiffractionVectors (Hk D : Type) where
  data : D
  hkls : Option Hk
  deriving DecidableEq

/-- The VectorMatchingResults signal: per-pixel match sets plus the hkls
attribute (initialised to None by the constructor, possibly set later). -/
structure VectorMatchingResults (R Hk : Type) where
  data : List (List (MatchCandidate R))
  hkls : Option Hk
  deriving DecidableEq

/-- Embedding of VectorMatchingResults.to_crystal_map (lines 275-328): the
body's first statement is raise ValueError("Currently under development"), so
every call fails with that message; the remaining reduction code is
unreachable and is not modelled. -/
def VectorMatchingResults.to_crystal_map {R Hk : Type}
    (self : VectorMatchingResults R Hk) : Except String CrystalMapInput :=
  Except.error "Currently under development"

/-- Embedding of VectorMatchingResults.get_indexed_diffraction_vectors
(lines 330-357).  The Bool component records whether the warning was emitted.
In-place mutation of the vectors argument is modelled by returning the updated
record; no validation beyond the overwrite/hkls checks is performed. -/
def VectorMatchingResults.get_indexed_diffraction_vectors {R Hk D : Type}
    (self : VectorMatchingResults R Hk) (vectors : DiffractionVectors Hk D)
    (overwrite : Bool) : DiffractionVectors Hk D × Bool :=
  if overwrite = false then
    if vectors.hkls.isSome then (vectors, true)
    else (⟨vectors.data, self.hkls⟩, false)
  else
    (⟨vectors.data, self.hkls⟩, false)

/-- Identity stand-in for the abstract Euler conversion, used on concrete
inputs whose rotation payload is Unit. -/
def euler0 : Unit → Unit := fun r => r

/-- Concrete candidate constructor for test inputs: phase p, unit rotation
payload, match_rate 1, empty ehkls, total_error e. -/
def mkMC (p : ℤ) (e : ℚ) : MatchCandidate Unit := ⟨p, (), 1, [], e⟩

/-- MatchSet whose best phase (0) contributes a single candidate while a
second phase is present. -/
def zC1cex : List (MatchCandidate Unit) := [mkMC 0 1, mkMC 1 2]

/-- Single-phase MatchSet with two candidates (errors 1 and 3). -/
def zC1w : List (MatchCandidate Unit) := [mkMC 0 1, mkMC 0 3]

/-- Two-phase MatchSet whose best phase contributes one candidate. -/
def zC2cex : List (MatchCandidate Unit) := [mkMC 0 1, mkMC 1 3]

/-- The spec's concrete scenario A scaled to integer errors: phase 0 with
errors 1 and 3, phase 1 with error 2. -/
def zC2w : List (MatchCandidate Unit) := [mkMC 0 1, mkMC 0 3, mkMC 1 2]

/-- Single-candidate MatchSet (the spec's scenario B). -/
def zC3cex : List (MatchCandidate Unit) := [mkMC 0 1]

/-- Single-phase MatchSet whose second-best error is exactly zero. -/
def zC4w : List (MatchCandidate Unit) := [mkMC 0 0, mkMC 0 0]

/-- Single-phase MatchSet with errors 2 and 3. -/
def zC9w : List (MatchCandidate Unit) := [mkMC 0 2, mkMC 0 3]

/-- The result crystal_from_vector_matching produces on zC2w. -/
def resC2w : ResultsArray Unit :=
  ⟨0, (), ⟨1, [], 1, some (100 * (1 - (1:ℚ) / 2)),
    100 * (1 - (1:ℚ) / (if (3:ℚ) = 0 then 1 else 3))⟩⟩

/-- The result crystal_from_vector_matching produces on zC1w. -/
def resC2w1 : ResultsArray Unit :=
  ⟨0, (), ⟨1, [], 1, none, 100 * (1 - (1:ℚ) / (if (3:ℚ) = 0 then 1 else 3))⟩⟩

/-- The result crystal_from_vector_matching produces on zC4w. -/
def resC4w : ResultsArray Unit :=
  ⟨0, (), ⟨1, [], 0, none, 100 * (1 - (0:ℚ) / (if (0:ℚ) = 0 then 1 else 0))⟩⟩

/-- The result crystal_from_vector_matching produces on zC9w. -/
def resC9w : ResultsArray Unit :=
  ⟨0, (), ⟨1, [], 2, none, 100 * (1 - (2:ℚ) / (if (3:ℚ) = 0 then 1 else 3))⟩⟩

/-- A dummy per-pixel (1,1) match array for coordinate tests. -/
def pixC6 : List (List ℚ) := [[1]]

/-- A 2-row by 3-column navigation grid of dummy pixels. -/
def selfC6w : GenericMatchingResults :=
  ⟨[[pixC6, pixC6, pixC6], [pixC6, pixC6, pixC6]]⟩

/-- The exact rational 0.8 = 4/5. -/
def qC7a : ℚ := Rat.mk' 4 5 (by decide) (by decide)

/-- The exact rational 0.95 = 19/20. -/
def qC7b : ℚ := Rat.mk' 19 20 (by decide) (by decide)

/-- The spec's scenario C score row [0.8, 0.95]. -/
def scoreC7 : List ℚ := [qC7a, qC7b]

/-- A vector-matching results object carrying an hkls assignment. -/
def vmrC8 : VectorMatchingResults Unit ℤ := ⟨[], some 7⟩

/-- A diffraction-vectors object already carrying an hkls assignment. -/
def dvC8 : DiffractionVectors ℤ ℤ := ⟨5, some 3⟩

/-- A diffraction-vectors object with no hkls assignment. -/
def dvC10 : DiffractionVectors ℤ ℤ := ⟨5, none⟩

/-- The index returned by np_argmax is in range for a non-empty list. -/
theorem np_argmax_lt (l : List ℚ) (h : l ≠ []) : np_argmax l < l.length := by
  induction l with
  | nil => exact absurd rfl h
  | cons v rest ih =>
    by_cases hr : rest = []
    · subst hr
      simp [np_argmax]
    · simp only [np_argmax]
      split
      · simp
      · simpa using Nat.succ_lt_succ (ih hr)

/-- The value at the np_argmax index is maximal. -/
theorem np_argmax_le (l : List ℚ) (i : Nat) (hi : i < l.length) :
    l.getD i 0 ≤ l.getD (np_argmax l) 0 := by
  induction l generalizing i with
  | nil => simp at hi
  | cons v rest ih =>
    by_cases hr : rest = []
    · subst hr
      have hi0 : i = 0 := by simpa using hi
      subst hi0
      simp [np_argmax]
    · have hlt := np_argmax_lt rest hr
      have hD : rest.getD (np_argmax rest) v = rest.getD (np_argmax rest) 0 := by
        rw [List.getD_eq_getElem?_getD, List.getD_eq_getElem?_getD,
          List.getElem?_eq_getElem hlt]
        rfl
      simp only [np_argmax]
      split
      · rename_i hc
        rw [hD] at hc
        cases i with
        | zero => simp
        | succ k =>
          have hk := ih k (by simpa using Nat.lt_of_succ_lt_succ hi)
          calc (v :: rest).getD (k + 1) 0 = rest.getD k 0 := by
                simp [List.getD_cons_succ]
            _ ≤ rest.getD (np_argmax rest) 0 := hk
            _ ≤ v := hc
            _ = (v :: rest).getD 0 0 := by simp
      · rename_i hc
        rw [hD] at hc
        push_neg at hc
        cases i with
        | zero =>
          calc (v :: rest).getD 0 0 = v := by simp
            _ ≤ rest.getD (np_argmax rest) 0 := le_of_lt hc
            _ = (v :: rest).getD (np_argmax rest + 1) 0 := by
                simp [List.getD_cons_succ]
        | succ k =>
          have hk := ih k (by simpa using Nat.lt_of_succ_lt_succ hi)
          simpa [List.getD_cons_succ] using hk

/-- Row-major flattening of a uniform grid of rows: the entry at flattened
index i * W + j is the grid entry of row i, column j. -/
theorem flatten_grid_getElem (g : Nat → Nat → Nat) (W : Nat) :
    ∀ (H a i j : Nat), i < H → j < W →
      ((((List.range' a H).map (fun r => (List.range W).map (g r))).flatten)[i * W + j]? =
        some (g (a + i) j)) := by
  intro H
  induction H with
  | zero => intro a i j hi _; exact absurd hi (Nat.not_lt_zero i)
  | succ n ih =>
    intro a i j hi hj
    rw [List.range'_succ, List.map_cons, List.flatten_cons]
    cases i with
    | zero =>
      rw [List.getElem?_append_left (by simpa using hj)]
      simp [List.getElem?_map, List.getElem?_range, hj]
    | succ k =>
      rw [List.getElem?_append_right (by simp only [List.length_map,
        List.length_range, Nat.succ_mul]; omega)]
      have harith : (k + 1) * W + j - ((List.range W).map (g a)).length = k * W + j := by
        simp only [List.length_map, List.length_range, Nat.succ_mul]
        omega
      rw [harith, ih (a + 1) k j (Nat.lt_of_succ_lt_succ hi) hj]
      have hrw : a + 1 + k = a + (k + 1) := by omega
      rw [hrw]

/-- C1 counterexample: on the MatchSet [{phase 0, error 1}, {phase 1, error 2}]
the best phase (0) contributes a single candidate while another phase is
present, and crystal_from_vector_matching fails (sorted(same_phase_matches)[1]
indexes out of range) instead of falling back to the globally second-best
candidate. -/
theorem claim_C1_cex : crystal_from_vector_matching euler0 zC1cex = none := by decide

/-- C1 (amended): the fallback to the globally second-best candidate (rank 1
by total_error ignoring phase) happens exactly when no candidate of a
different phase is present in the MatchSet; in that case, whenever the global
rank-1 candidate exists, crystal_from_vector_matching succeeds and computes
orientation_reliability from it (with the zero-denominator guard), and the
phase_reliability key is absent.  When the best phase contributes only one
candidate but another phase is present, the call instead fails (see the
counterexample). -/
theorem claim_C1 {R E : Type} (euler : R → E) (z : List (MatchCandidate R))
    (best s : MatchCandidate R)
    (hbest : get_nth_best_solution z 0 = some best)
    (hsingle : (other_phase_matches best z).isEmpty = true)
    (hs : get_nth_best_solution z 1 = some s) :
    ∃ res, crystal_from_vector_matching euler z = some res ∧
      res.metrics.orientation_reliability =
        100 * (1 - best.total_error / (if s.total_error = 0 then 1 else s.total_error)) ∧
      res.metrics.phase_reliability = none := by
  have hf : crystal_from_vector_matching euler z =
      some ⟨best.phase_index, euler best.rotation_matrix,
        ⟨best.match_rate, best.error_hkls, best.total_error, none,
          100 * (1 - best.total_error /
            (if s.total_error = 0 then 1 else s.total_error))⟩⟩ := by
    simp [crystal_from_vector_matching, phase_reliability_step, select_second_match,
      hbest, hsingle, hs]
  exact ⟨_, hf, rfl, rfl⟩

/-- C1 witness: on the single-phase MatchSet [{phase 0, error 1},
{phase 0, error 3}] the reducer succeeds, computes orientation_reliability
from the global rank-1 candidate (error 3), and omits phase_reliability. -/
theorem claim_C1_witness :
    ∃ res, crystal_from_vector_matching euler0 zC1w = some res ∧
      res.metrics.orientation_reliability =
        100 * (1 - (1:ℚ) / (if (3:ℚ) = 0 then 1 else 3)) ∧
      res.metrics.phase_reliability = none :=
  claim_C1 euler0 zC1w (mkMC 0 1) (mkMC 0 3) (by decide) (by decide) (by decide)

/-- C2 counterexample: the MatchSet [{phase 0, error 1}, {phase 1, error 3}]
contains two distinct phase indices, yet crystal_from_vector_matching fails
(no metrics dict containing phase_reliability is ever produced), because the
best phase contributes only one candidate and sorted(same_phase_matches)[1]
indexes out of range after phase_reliability was computed. -/
theorem claim_C2_cex : crystal_from_vector_matching euler0 zC2cex = none := by decide

/-- C2 (amended): whenever the MatchSet contains a candidate of a phase other
than the best one AND the call returns a result (which requires the best phase
to contribute at least two candidates and the cross-phase runner-up error to
be nonzero), the metrics dict carries phase_reliability =
100 * (1 - best.total_error / second_best_cross_phase.total_error), where
second_best_cross_phase is the error-minimal candidate of a different phase;
when only one phase is represented, any returned metrics dict lacks the
phase_reliability key entirely. -/
theorem claim_C2 {R E : Type} (euler : R → E) (z : List (MatchCandidate R))
    (best : MatchCandidate R)
    (hbest : get_nth_best_solution z 0 = some best) :
    (∀ sbp res, (other_phase_matches best z).isEmpty = false →
      (sortByError (other_phase_matches best z))[0]? = some sbp →
      crystal_from_vector_matching euler z = some res →
      res.metrics.phase_reliability =
        some (100 * (1 - best.total_error / sbp.total_error))) ∧
    ((other_phase_matches best z).isEmpty = true →
      ∀ res, crystal_from_vector_matching euler z = some res →
        res.metrics.phase_reliability = none) := by
  constructor
  · intro sbp res hne hsbp hok
    simp only [crystal_from_vector_matching, phase_reliability_step, hbest, hne, hsbp,
      Bool.false_eq_true, if_false] at hok
    by_cases h0 : sbp.total_error = 0
    · simp [h0] at hok
    · simp only [h0, if_false] at hok
      cases hsm : select_second_match best z with
      | none => rw [hsm] at hok; cases hok
      | some sm =>
        rw [hsm] at hok
        have hres := Option.some.inj hok
        subst hres
        rfl
  · intro hempty res hok
    simp only [crystal_from_vector_matching, phase_reliability_step, hbest, hempty,
      if_true] at hok
    cases hsm : select_second_match best z with
    | none => rw [hsm] at hok; cases hok
    | some sm =>
      rw [hsm] at hok
      have hres := Option.some.inj hok
      subst hres
      rfl

/-- C2 witness: on the scenario-A MatchSet (phase 0 errors 1 and 3, phase 1
error 2) the returned metrics dict carries phase_reliability =
100 * (1 - 1/2); on the single-phase MatchSet zC1w the returned metrics dict
has no phase_reliability key. -/
theorem claim_C2_witness :
    resC2w.metrics.phase_reliability = some (100 * (1 - (1:ℚ) / 2)) ∧
    resC2w1.metrics.phase_reliability = none :=
  ⟨(claim_C2 euler0 zC2w (mkMC 0 1) (by decide)).1 (mkMC 1 2) resC2w
      (by decide) (by decide) rfl,
   (claim_C2 euler0 zC1w (mkMC 0 1) (by decide)).2 (by decide) resC2w1 rfl⟩

/-- C3 counterexample: on the single-candidate MatchSet [{phase 0, error 1}]
(the spec's scenario B) crystal_from_vector_matching does fail — the global
rank-1 lookup finds no second candidate — rather than returning a metrics
dict with the reliability entries absent. -/
theorem claim_C3_cex : crystal_from_vector_matching euler0 zC3cex = none := by decide

/-- C3 (amended): for every MatchSet containing exactly one candidate,
crystal_from_vector_matching fails (no second candidate of any kind exists,
so the rank-1 lookup fails) and produces no result at all; in particular no
metrics dict — with or without phase_reliability — is returned. -/
theorem claim_C3 {R E : Type} (euler : R → E) (m : MatchCandidate R) :
    crystal_from_vector_matching euler [m] = none := by
  simp [crystal_from_vector_matching, get_nth_best_solution, sortByError,
    List.insertionSort, List.orderedInsert, phase_reliability_step,
    select_second_match, other_phase_matches]

/-- C4: whenever crystal_from_vector_matching returns a result, the
orientation_reliability entry was computed with denominator 1 if the selected
second_best_same_phase candidate has total_error exactly zero (no
division-by-zero failure), and with denominator equal to that candidate's
total_error otherwise. -/
theorem claim_C4 {R E : Type} (euler : R → E) (z : List (MatchCandidate R))
    (best s : MatchCandidate R) (res : ResultsArray E)
    (hbest : get_nth_best_solution z 0 = some best)
    (hs : select_second_match best z = some s)
    (hok : crystal_from_vector_matching euler z = some res) :
    (s.total_error = 0 →
      res.metrics.orientation_reliability = 100 * (1 - best.total_error / 1)) ∧
    (s.total_error ≠ 0 →
      res.metrics.orientation_reliability =
        100 * (1 - best.total_error / s.total_error)) := by
  simp only [crystal_from_vector_matching, hbest, hs] at hok
  cases hpr : phase_reliability_step best z with
  | none => rw [hpr] at hok; cases hok
  | some pr =>
    rw [hpr] at hok
    have hres := Option.some.inj hok
    subst hres
    constructor
    · intro h0
      simp [h0]
    · intro h0
      simp [h0]

/-- C4 witness: on the MatchSet [{phase 0, error 0}, {phase 0, error 0}] the
selected second-best candidate has total_error 0, and the returned
orientation_reliability equals 100 * (1 - best.total_error / 1). -/
theorem claim_C4_witness :
    resC4w.metrics.orientation_reliability = 100 * (1 - (0:ℚ) / 1) :=
  (claim_C4 euler0 zC4w (mkMC 0 0) (mkMC 0 0) resC4w (by decide) (by decide) rfl).1 rfl

/-- C5: VectorMatchingResults.to_crystal_map fails with the descriptive error
"Currently under development" on every input, and its outcome is entirely
independent of the input object — no part of the input is read or transformed
and no partial reduction or map is ever produced. -/
theorem claim_C5 {R Hk : Type} (self other : VectorMatchingResults R Hk) :
    VectorMatchingResults.to_crystal_map self =
      Except.error "Currently under development" ∧
    VectorMatchingResults.to_crystal_map self =
      VectorMatchingResults.to_crystal_map other :=
  ⟨rfl, rfl⟩

/-- C6: for a scan of H rows and W columns, the coordinate arrays built by
GenericMatchingResults.to_crystal_map hold exactly the column index j in the
x-array and the row index i in the y-array at every flattened index
i * W + j, and both arrays depend only on the scan shape (row index
slow-varying, column index fast-varying). -/
theorem claim_C6 (self : GenericMatchingResults) (i j : Nat)
    (hi : i < self.data.length) (hj : j < (self.data.headD []).length) :
    ((GenericMatchingResults.to_crystal_map self).x)[i * (self.data.headD []).length + j]? =
      some j ∧
    ((GenericMatchingResults.to_crystal_map self).y)[i * (self.data.headD []).length + j]? =
      some i ∧
    ∀ other : GenericMatchingResults,
      other.data.length = self.data.length →
      (other.data.headD []).length = (self.data.headD []).length →
      (GenericMatchingResults.to_crystal_map other).x =
        (GenericMatchingResults.to_crystal_map self).x ∧
      (GenericMatchingResults.to_crystal_map other).y =
        (GenericMatchingResults.to_crystal_map self).y := by
  refine ⟨?_, ?_, ?_⟩
  · have h := flatten_grid_getElem (fun _ c => c) (self.data.headD []).length
      self.data.length 0 i j hi hj
    simp only [Nat.zero_add, List.map_id'] at h
    simp only [GenericMatchingResults.to_crystal_map, np_indices]
    rw [List.range_eq_range' self.data.length]
    exact h
  · have h := flatten_grid_getElem (fun r _ => r) (self.data.headD []).length
      self.data.length 0 i j hi hj
    simp only [Nat.zero_add] at h
    simp only [GenericMatchingResults.to_crystal_map, np_indices]
    rw [List.range_eq_range' self.data.length]
    exact h
  · intro other h1 h2
    constructor
    · simp only [GenericMatchingResults.to_crystal_map, np_indices, h1, h2]
    · simp only [GenericMatchingResults.to_crystal_map, np_indices, h1, h2]

/-- C6 witness: on a 2 x 3 scan, flattened index 5 = 1 * 3 + 2 holds column 2
in the x-array and row 1 in the y-array. -/
theorem claim_C6_witness :
    ((GenericMatchingResults.to_crystal_map selfC6w).x)[5]? = some 2 ∧
    ((GenericMatchingResults.to_crystal_map selfC6w).y)[5]? = some 1 :=
  ⟨(claim_C6 selfC6w 1 2 (by decide) (by decide)).1,
   (claim_C6 selfC6w 1 2 (by decide) (by decide)).2.1⟩

/-- C7: on a (5, n) template-matching array with rows [phase, alpha, beta,
gamma, score], _get_best_match returns the full 5-element column at the index
selected by np.argmax over the score row, that index is in range, and the
score there is maximal. -/
theorem claim_C7 (phase alpha beta gamma score : List ℚ) (hne : score ≠ []) :
    _get_best_match [phase, alpha, beta, gamma, score] =
      [phase.getD (np_argmax score) 0, alpha.getD (np_argmax score) 0,
       beta.getD (np_argmax score) 0, gamma.getD (np_argmax score) 0,
       score.getD (np_argmax score) 0] ∧
    np_argmax score < score.length ∧
    ∀ i, i < score.length → score.getD i 0 ≤ score.getD (np_argmax score) 0 :=
  ⟨rfl, np_argmax_lt score hne, fun i hi => np_argmax_le score i hi⟩

/-- C7 witness: on the spec's scenario C (phase [0,1], alpha [10,20],
beta [5,15], gamma [1,2], score [0.8, 0.95]) the selector picks column index
1 and returns that full column. -/
theorem claim_C7_witness :
    np_argmax scoreC7 = 1 ∧
    _get_best_match [[0, 1], [10, 20], [5, 15], [1, 2], scoreC7] =
      [1, 20, 15, 2, qC7b] :=
  ⟨by decide,
   (claim_C7 [0, 1] [10, 20] [5, 15] [1, 2] scoreC7 (by decide)).1⟩

/-- C8: with overwrite=False and vectors already carrying an hkls assignment,
get_indexed_diffraction_vectors leaves vectors unchanged and emits a warning
(it does not fail); with overwrite=True the hkls assignment is replaced by
self.hkls unconditionally, with no further validation of any kind. -/
theorem claim_C8 {R Hk D : Type} (self : VectorMatchingResults R Hk)
    (vectors : DiffractionVectors Hk D) :
    (∀ hk, vectors.hkls = some hk →
      VectorMatchingResults.get_indexed_diffraction_vectors self vectors false =
        (vectors, true)) ∧
    VectorMatchingResults.get_indexed_diffraction_vectors self vectors true =
      (⟨vectors.data, self.hkls⟩, false) := by
  constructor
  · intro hk h
    simp [VectorMatchingResults.get_indexed_diffraction_vectors, h]
  · simp [VectorMatchingResults.get_indexed_diffraction_vectors]

/-- C8 witness: with hkls already assigned (some 3) and overwrite=False the
vectors object is returned unchanged with a warning; with overwrite=True its
hkls becomes self.hkls = some 7 with no warning. -/
theorem claim_C8_witness :
    VectorMatchingResults.get_indexed_diffraction_vectors vmrC8 dvC8 false =
      (dvC8, true) ∧
    VectorMatchingResults.get_indexed_diffraction_vectors vmrC8 dvC8 true =
      (⟨(5:ℤ), some (7:ℤ)⟩, false) :=
  ⟨(claim_C8 vmrC8 dvC8).1 3 rfl, (claim_C8 vmrC8 dvC8).2⟩

/-- C9: crystal_from_vector_matching is deterministic and stateless — two
calls on the same MatchSet yield the same outcome, and any two returned
results agree on the phase index, the Euler entry and the whole metrics
dict. -/
theorem claim_C9 {R E : Type} (euler : R → E) (z : List (MatchCandidate R)) :
    crystal_from_vector_matching euler z = crystal_from_vector_matching euler z ∧
    ∀ r₁ r₂, crystal_from_vector_matching euler z = some r₁ →
      crystal_from_vector_matching euler z = some r₂ →
      r₁.phase_index = r₂.phase_index ∧ r₁.orientation = r₂.orientation ∧
      r₁.metrics = r₂.metrics := by
  refine ⟨rfl, fun r₁ r₂ h₁ h₂ => ?_⟩
  rw [h₁] at h₂
  obtain rfl := Option.some.inj h₂
  exact ⟨rfl, rfl, rfl⟩

/-- C9 witness: two evaluations on the MatchSet [{phase 0, error 2},
{phase 0, error 3}] return results agreeing in every component. -/
theorem claim_C9_witness :
    resC9w.phase_index = resC9w.phase_index ∧
    resC9w.orientation = resC9w.orientation ∧
    resC9w.metrics = resC9w.metrics :=
  (claim_C9 euler0 zC9w).2 resC9w resC9w rfl rfl

/-- C10: with overwrite=False and vectors.hkls previously None, the function
does assign vectors.hkls = self.hkls; and in every branch the returned object
is the argument object itself — its non-hkls payload is preserved and it
differs from the input at most in the hkls attribute. -/
theorem claim_C10 {R Hk D : Type} (self : VectorMatchingResults R Hk)
    (vectors : DiffractionVectors Hk D) :
    (vectors.hkls = none →
      VectorMatchingResults.get_indexed_diffraction_vectors self vectors false =
        (⟨vectors.data, self.hkls⟩, false)) ∧
    ∀ overwrite,
      (VectorMatchingResults.get_indexed_diffraction_vectors self vectors overwrite).1.data =
        vectors.data ∧
      ((VectorMatchingResults.get_indexed_diffraction_vectors self vectors overwrite).1 =
          vectors ∨
        (VectorMatchingResults.get_indexed_diffraction_vectors self vectors overwrite).1 =
          ⟨vectors.data, self.hkls⟩) := by
  constructor
  · intro h
    simp [VectorMatchingResults.get_indexed_diffraction_vectors, h]
  · intro overwrite
    cases overwrite with
    | false =>
      cases hv : vectors.hkls with
      | none =>
        simp [VectorMatchingResults.get_indexed_diffraction_vectors, hv]
      | some hk =>
        simp [VectorMatchingResults.get_indexed_diffraction_vectors, hv]
    | true =>
      simp [VectorMatchingResults.get_indexed_diffraction_vectors]

/-- C10 witness: with vectors.hkls = None and overwrite=False the assignment
happens (hkls becomes some 7) without a warning, and with overwrite=True the
returned object keeps the input's non-hkls payload. -/
theorem claim_C10_witness :
    VectorMatchingResults.get_indexed_diffraction_vectors vmrC8 dvC10 false =
      (⟨(5:ℤ), some (7:ℤ)⟩, false) ∧
    (VectorMatchingResults.get_indexed_diffraction_vectors vmrC8 dvC8 true).1.data =
      dvC8.data :=
  ⟨(claim_C10 vmrC8 dvC10).1 rfl, ((claim_C10 vmrC8 dvC8).2 true).1⟩
